import Mathlib

set_option autoImplicit false

/-!
Shallow embedding of the `ReceiptProcessor` React component
(`src/components/ReceiptProcessor.tsx`): local UI state (`processing`,
`progress`, `summary`, `folderSelected`), the `handleFolderSelect` and
`handleProcess` handlers, and the `EventSource` progress stream they drive.

The component is modelled as a state machine.  The async handlers are cut at
their suspension points (`await fetch`, `await response.json()`) into atomic
steps; environment occurrences (response settling, stream messages, button
clicks) are the events.  Auxiliary counters (`opensThisRun`, `totalOpens`,
`processRequests`, toast counters) record observable side effects that the
source performs but does not store in React state.
-/

namespace ReceiptProcessor

/-- Parsed JSON body of an HTTP-ok `POST /process` response.  The handler
reads `data.processed` and `data.total`; either field may be absent, in which
case `data.processed || 0` / `data.total || 0` substitutes `0`. -/
structure ProcessBody where
  processed : Option Int
  total : Option Int
  deriving Repr, DecidableEq

/-- Outcome of a `POST /select-folder` call as observed by
`handleFolderSelect`: an HTTP-ok response whose parsed body has the boolean
`success` field, or a failure (rejected fetch, non-ok response, or unparseable
body), which lands in the `catch` block. -/
inductive SelectOutcome where
  | selOk (success : Bool)
  | selFail
  deriving Repr, DecidableEq

/-- Position of the in-flight `handleProcess` invocation relative to its two
suspension points: `idle` (no invocation pending), `awaitingResponse`
(after `await fetch(baseUrl + "/process")` was issued), `awaitingJson`
(response arrived ok, `EventSource` constructed, `await response.json()`
pending). -/
inductive Phase where
  | idle
  | awaitingResponse
  | awaitingJson
  deriving Repr, DecidableEq

/-- The component's state.  The first four fields are the four `useState`
hooks of the source.  `phase` and `pendingBody` locate the in-flight
`handleProcess` call; `curOpen` says whether the `EventSource` created by the
current (latest) run is open; `leaked` counts channels created by earlier
runs that are still open.  The counters record side effects. -/
structure State where
  processing : Bool
  progress : Int
  summary : Option (Int × Int)
  folderSelected : Bool
  phase : Phase
  pendingBody : Option ProcessBody
  curOpen : Bool
  leaked : Nat
  opensThisRun : Nat
  totalOpens : Nat
  processRequests : Nat
  errorToasts : Nat
  successToasts : Nat
  deriving Repr, DecidableEq

/-- Initial state: `useState(false)`, `useState(0)`, `useState(null)`,
`useState(false)`; no handler in flight, no channel open. -/
def init : State :=
  { processing := false
    progress := 0
    summary := none
    folderSelected := false
    phase := Phase.idle
    pendingBody := none
    curOpen := false
    leaked := 0
    opensThisRun := 0
    totalOpens := 0
    processRequests := 0
    errorToasts := 0
    successToasts := 0 }

/-- Events: user clicks and environment occurrences (promise settlements and
stream deliveries). -/
inductive Ev where
  /-- The user clicks the Process Receipts button. -/
  | clickProcess
  /-- The `fetch(baseUrl + "/process")` promise resolves with an ok response
  whose body will parse to `body`. -/
  | respOk (body : ProcessBody)
  /-- The `fetch(baseUrl + "/process")` promise rejects, or resolves with a
  non-ok response (`throw new Error("Processing failed")`). -/
  | respFail
  /-- The pending `response.json()` promise resolves. -/
  | jsonOk
  /-- The pending `response.json()` promise rejects. -/
  | jsonFail
  /-- The current run's `EventSource` delivers a message whose parsed body
  has `progress = p`. -/
  | msg (p : Int)
  /-- The current run's `EventSource` fires `onerror`. -/
  | esErr
  /-- A still-open `EventSource` of some earlier run delivers a message with
  `progress = p` (its `onmessage` closure is still attached). -/
  | oldMsg (p : Int)
  /-- A still-open `EventSource` of some earlier run fires `onerror`. -/
  | oldErr
  /-- The user clicks Select Receipt Folder and the `handleFolderSelect`
  call completes with outcome `r`. -/
  | selectFolder (r : SelectOutcome)
  deriving Repr, DecidableEq

/-- Disabled predicate of the Process Receipts button:
`disabled={processing || !folderSelected}`. -/
def processDisabled (s : State) : Bool :=
  s.processing || !s.folderSelected

/-- One atomic step of the component.  Each case transcribes the
corresponding source fragment; events whose guard does not hold (a click on a
disabled button, a settlement with no matching pending promise, a delivery on
a closed channel) leave the state unchanged. -/
def step (s : State) : Ev → State
  | Ev.clickProcess =>
      -- Button fires only when enabled; `handleProcess` then runs
      -- `setProcessing(true); setProgress(0); setSummary(null)` and issues
      -- the POST.  The previous run's EventSource, if still open, is merely
      -- abandoned (the source never closes it here).
      if processDisabled s then s
      else
        { s with
            processing := true
            progress := 0
            summary := none
            phase := Phase.awaitingResponse
            pendingBody := none
            leaked := s.leaked + (if s.curOpen then 1 else 0)
            curOpen := false
            opensThisRun := 0
            processRequests := s.processRequests + 1 }
  | Ev.respOk body =>
      -- `response.ok` holds: the source constructs
      -- `new EventSource(baseUrl + "/progress")`, installs onmessage/onerror,
      -- then suspends on `await response.json()`.
      if s.phase = Phase.awaitingResponse then
        { s with
            phase := Phase.awaitingJson
            pendingBody := some body
            curOpen := true
            opensThisRun := s.opensThisRun + 1
            totalOpens := s.totalOpens + 1 }
      else s
  | Ev.respFail =>
      -- `throw` (or rejection) lands in `catch`: destructive toast; then
      -- `finally` runs `setProcessing(false)`.
      if s.phase = Phase.awaitingResponse then
        { s with
            phase := Phase.idle
            processing := false
            errorToasts := s.errorToasts + 1 }
      else s
  | Ev.jsonOk =>
      -- `const data = await response.json()` resolves:
      -- `setSummary({processed: data.processed || 0, total: data.total || 0})`,
      -- success toast, then `finally` runs `setProcessing(false)`.
      match s.phase, s.pendingBody with
      | Phase.awaitingJson, some b =>
          { s with
              phase := Phase.idle
              processing := false
              summary := some (b.processed.getD 0, b.total.getD 0)
              successToasts := s.successToasts + 1 }
      | _, _ => s
  | Ev.jsonFail =>
      -- `response.json()` rejects: `catch` toast, `finally` clears the flag.
      -- The EventSource stays as it was.
      if s.phase = Phase.awaitingJson then
        { s with
            phase := Phase.idle
            processing := false
            errorToasts := s.errorToasts + 1 }
      else s
  | Ev.msg p =>
      -- `onmessage`: `setProgress(data.progress)`; close only on exactly 100.
      if s.curOpen then
        if p = 100 then { s with progress := p, curOpen := false }
        else { s with progress := p }
      else s
  | Ev.esErr =>
      -- `onerror`: `eventSource.close()` only.
      if s.curOpen then { s with curOpen := false } else s
  | Ev.oldMsg p =>
      -- An abandoned channel's `onmessage` closure still calls the same
      -- `setProgress` and self-closes on exactly 100.
      if 0 < s.leaked then
        if p = 100 then { s with progress := p, leaked := s.leaked - 1 }
        else { s with progress := p }
      else s
  | Ev.oldErr =>
      if 0 < s.leaked then { s with leaked := s.leaked - 1 } else s
  | Ev.selectFolder r =>
      -- The Select Receipt Folder button is `disabled={processing}`.  On an
      -- ok response, `if (data.success)` sets the flag and toasts; a false
      -- `success` does nothing at all; any failure lands in `catch`.
      if s.processing then s
      else
        match r with
        | SelectOutcome.selOk true =>
            { s with
                folderSelected := true
                successToasts := s.successToasts + 1 }
        | SelectOutcome.selOk false => s
        | SelectOutcome.selFail =>
            { s with errorToasts := s.errorToasts + 1 }

/-- Run a list of events from a state. -/
def steps (s : State) (evs : List Ev) : State :=
  evs.foldl step s

/-- Run a list of events from the initial state. -/
def run (evs : List Ev) : State :=
  steps init evs

/-- A state the component can actually be in. -/
def Reachable (s : State) : Prop :=
  ∃ evs, run evs = s

/-- Total number of currently open progress channels (the current run's plus
any leaked ones). -/
def openCount (s : State) : Nat :=
  s.leaked + (if s.curOpen then 1 else 0)

/-- Events originating from a progress-stream channel (a message or a
transport error, on the current or on an abandoned channel). -/
def isStreamEv : Ev → Bool
  | Ev.msg _ => true
  | Ev.esErr => true
  | Ev.oldMsg _ => true
  | Ev.oldErr => true
  | _ => false

/-! ### Helper lemmas -/

/-- A stream event (message or transport error, on any channel) leaves the
handler phase, the pending body, the `processing` flag, the `summary` and the
`folderSelected` flag untouched: it can only write `progress` and close a
channel. -/
theorem step_stream_frame (s : State) (e : Ev) (h : isStreamEv e = true) :
    (step s e).phase = s.phase ∧ (step s e).pendingBody = s.pendingBody ∧
    (step s e).processing = s.processing ∧ (step s e).summary = s.summary ∧
    (step s e).folderSelected = s.folderSelected := by
  cases e <;> simp [isStreamEv] at h <;>
    simp only [step] <;>
    repeat' first | rfl | (constructor <;> try rfl) | split

/-- `steps` over a cons. -/
theorem steps_cons (s : State) (e : Ev) (evs : List Ev) :
    steps s (e :: evs) = steps (step s e) evs := rfl

/-- `steps` over an append. -/
theorem steps_append (s : State) (l1 l2 : List Ev) :
    steps s (l1 ++ l2) = steps (steps s l1) l2 := by
  simp [steps, List.foldl_append]

/-- `step_stream_frame`, iterated over a whole list of stream events. -/
theorem steps_stream_frame (evs : List Ev) (s : State)
    (h : ∀ e ∈ evs, isStreamEv e = true) :
    (steps s evs).phase = s.phase ∧ (steps s evs).pendingBody = s.pendingBody ∧
    (steps s evs).processing = s.processing ∧ (steps s evs).summary = s.summary ∧
    (steps s evs).folderSelected = s.folderSelected := by
  induction evs generalizing s with
  | nil => exact ⟨rfl, rfl, rfl, rfl, rfl⟩
  | cons e tl ih =>
      have h1 := step_stream_frame s e (h e (List.mem_cons_self e tl))
      have h2 := ih (step s e) (fun x hx => h x (List.mem_cons_of_mem e hx))
      rw [steps_cons]
      exact ⟨h2.1.trans h1.1, h2.2.1.trans h1.2.1, h2.2.2.1.trans h1.2.2.1,
        h2.2.2.2.1.trans h1.2.2.2.1, h2.2.2.2.2.trans h1.2.2.2.2⟩

/-- Auxiliary invariant: the current run has not opened a channel while its
response is pending, and never opens more than one. -/
def OpensInv (s : State) : Prop :=
  (s.phase = Phase.awaitingResponse → s.opensThisRun = 0) ∧ s.opensThisRun ≤ 1

theorem opensInv_init : OpensInv init :=
  ⟨fun _ => rfl, Nat.zero_le 1⟩

theorem opensInv_step (s : State) (e : Ev) (h : OpensInv s) :
    OpensInv (step s e) := by
  obtain ⟨h1, h2⟩ := h
  unfold OpensInv
  cases e <;> simp only [step] <;> repeat' split
  all_goals first
    | exact ⟨h1, h2⟩
    | exact ⟨fun _ => rfl, Nat.zero_le 1⟩
    | exact ⟨fun hc => Phase.noConfusion hc, h2⟩
    | (rename_i hph; exact ⟨fun hc => Phase.noConfusion hc, by simp [h1 hph]⟩)

theorem reachable_opensInv (s : State) (h : Reachable s) : OpensInv s := by
  obtain ⟨evs, rfl⟩ := h
  suffices hall : ∀ t, OpensInv t → OpensInv (steps t evs) from
    hall init opensInv_init
  induction evs with
  | nil => exact fun t ht => ht
  | cons e tl ih => exact fun t ht => ih (step t e) (opensInv_step t e ht)

/-- Equation lemma: the `jsonOk` step from a state awaiting the body parse
with pending body `b` sets the summary from `b` and clears the flag. -/
theorem step_jsonOk_eq (s : State) (b : ProcessBody)
    (hph : s.phase = Phase.awaitingJson) (hpb : s.pendingBody = some b) :
    step s Ev.jsonOk
      = { s with
            phase := Phase.idle
            processing := false
            summary := some (b.processed.getD 0, b.total.getD 0)
            successToasts := s.successToasts + 1 } := by
  obtain ⟨f1, f2, f3, f4, ph, pb, f7, f8, f9, f10, f11, f12, f13⟩ := s
  change ph = _ at hph
  change pb = _ at hpb
  subst hph
  subst hpb
  rfl

/-- Equation lemma: the `respFail` step from a state awaiting the response
runs the catch and finally blocks: error toast, flag cleared. -/
theorem step_respFail_eq (s : State)
    (hph : s.phase = Phase.awaitingResponse) :
    step s Ev.respFail
      = { s with
            phase := Phase.idle
            processing := false
            errorToasts := s.errorToasts + 1 } := by
  obtain ⟨f1, f2, f3, f4, ph, pb, f7, f8, f9, f10, f11, f12, f13⟩ := s
  change ph = _ at hph
  subst hph
  rfl

/-! ### Claim theorems -/

/-- C1: for every successful run — the POST `/process` response is ok and its
parsed JSON body carries `processed = p` and `total = t` — the summary set by
the run equals exactly the response's `processed`/`total` fields, whatever
progress-stream events are interleaved before and after the response's
arrival. -/
theorem c1_summary_equals_response (s : State) (body : ProcessBody)
    (pre post : List Ev) (p t : Int)
    (hphase : s.phase = Phase.awaitingResponse)
    (hpre : ∀ e ∈ pre, isStreamEv e = true)
    (hpost : ∀ e ∈ post, isStreamEv e = true)
    (hp : body.processed = some p) (ht : body.total = some t) :
    (step (steps (step (steps s pre) (Ev.respOk body)) post)
        Ev.jsonOk).summary = some (p, t) := by
  have hph1 : (steps s pre).phase = Phase.awaitingResponse :=
    (steps_stream_frame pre s hpre).1.trans hphase
  have h2ph : (step (steps s pre) (Ev.respOk body)).phase
      = Phase.awaitingJson := by
    simp [step, hph1]
  have h2pb : (step (steps s pre) (Ev.respOk body)).pendingBody
      = some body := by
    simp [step, hph1]
  have h3 := steps_stream_frame post (step (steps s pre) (Ev.respOk body)) hpost
  have h3ph := h3.1.trans h2ph
  have h3pb := h3.2.1.trans h2pb
  rw [step_jsonOk_eq _ body h3ph h3pb]
  simp [hp, ht]

/-- C1 witness: a concrete successful run with a stream message interleaved
on each side of the response's arrival; the summary equals `(7, 10)`. -/
theorem c1_witness :
    (step (steps (step (steps
        (run [Ev.selectFolder (SelectOutcome.selOk true), Ev.clickProcess])
        [Ev.oldMsg 10]) (Ev.respOk ⟨some 7, some 10⟩)) [Ev.msg 50])
        Ev.jsonOk).summary = some (7, 10) :=
  c1_summary_equals_response _ ⟨some 7, some 10⟩ [Ev.oldMsg 10] [Ev.msg 50]
    7 10 (by decide) (by decide) (by decide) rfl rfl

/-- Written from the spec's words, for comparison with the source behaviour:
the maximum progress value received so far in the run, each value clamped to
`[0, 100]`, starting from the initial `0`. -/
def specClampedMax (ps : List Int) : Int :=
  ps.foldl (fun acc p => max acc (min (max p 0) 100)) 0

/-- C2 counterexample: after the stream delivers 50 and then a regressing 30,
the state's `progress` is 30, not the clamped maximum 50 — the source's
`onmessage` runs `setProgress(data.progress)` with no maximum and no clamp. -/
theorem c2_counterexample :
    (run [Ev.selectFolder (SelectOutcome.selOk true), Ev.clickProcess,
          Ev.respOk ⟨some 1, some 2⟩, Ev.msg 50, Ev.msg 30]).progress = 30 ∧
    specClampedMax [50, 30] = 50 ∧
    (run [Ev.selectFolder (SelectOutcome.selOk true), Ev.clickProcess,
          Ev.respOk ⟨some 1, some 2⟩, Ev.msg 50, Ev.msg 30]).progress
      ≠ specClampedMax [50, 30] := by decide

/-- C2 (amended): each stream message delivered while the channel is open
overwrites `progress` with the raw received value — no maximum, no clamping,
so a regressing or out-of-range value is displayed as sent — and a message
arriving after the channel closed is not delivered (state unchanged). -/
theorem c2_progress_is_last_raw (s : State) (p : Int) :
    (s.curOpen = true → (step s (Ev.msg p)).progress = p) ∧
    (s.curOpen = false → step s (Ev.msg p) = s) := by
  constructor
  · intro h
    simp only [step, h, if_true]
    split <;> rfl
  · intro h
    simp [step, h]

/-- C2 witness: with the channel open, a raw out-of-range regressing value
`-5` is stored as is. -/
theorem c2_witness :
    (step (run [Ev.selectFolder (SelectOutcome.selOk true), Ev.clickProcess,
                Ev.respOk ⟨some 1, some 2⟩, Ev.msg 50])
        (Ev.msg (-5))).progress = -5 :=
  (c2_progress_is_last_raw _ (-5)).1 (by decide)

/-- C3 counterexample: right after the POST `/process` request is issued
(`processRequests = 1`) and while its response is still pending
(`phase = awaitingResponse`), no progress channel has ever been opened
(`totalOpens = 0`) — the source constructs the `EventSource` only after
`await fetch` returns, so the channel is not opened concurrently with the
response's arrival. -/
theorem c3_counterexample :
    (run [Ev.selectFolder (SelectOutcome.selOk true),
          Ev.clickProcess]).processRequests = 1 ∧
    (run [Ev.selectFolder (SelectOutcome.selOk true),
          Ev.clickProcess]).phase = Phase.awaitingResponse ∧
    (run [Ev.selectFolder (SelectOutcome.selOk true),
          Ev.clickProcess]).totalOpens = 0 := by decide

/-- C3 (amended): the progress-stream channel is opened sequentially after
the POST `/process` response arrives and passes the ok check — the only step
that opens a channel is the arrival of an ok response in phase
`awaitingResponse`, and it opens the channel before the body parse
completes. -/
theorem c3_channel_opens_after_response (s : State) (e : Ev)
    (h : (step s e).totalOpens ≠ s.totalOpens) :
    ∃ body, e = Ev.respOk body ∧ s.phase = Phase.awaitingResponse ∧
      (step s e).curOpen = true ∧ (step s e).phase = Phase.awaitingJson := by
  cases e
  case respOk body =>
    by_cases hph : s.phase = Phase.awaitingResponse
    · exact ⟨body, rfl, hph, by simp [step, hph], by simp [step, hph]⟩
    · simp only [step, if_neg hph] at h
      exact absurd rfl h
  all_goals (simp only [step] at h; repeat' split at h) <;> exact absurd rfl h

/-- C3 witness: at the concrete state with the response pending, the
ok-response arrival is the step that opens the channel. -/
theorem c3_witness :
    ∃ body, Ev.respOk ⟨some 1, some 2⟩ = Ev.respOk body ∧
      (run [Ev.selectFolder (SelectOutcome.selOk true),
            Ev.clickProcess]).phase = Phase.awaitingResponse ∧
      (step (run [Ev.selectFolder (SelectOutcome.selOk true),
            Ev.clickProcess]) (Ev.respOk ⟨some 1, some 2⟩)).curOpen = true ∧
      (step (run [Ev.selectFolder (SelectOutcome.selOk true),
            Ev.clickProcess]) (Ev.respOk ⟨some 1, some 2⟩)).phase
        = Phase.awaitingJson :=
  c3_channel_opens_after_response _ (Ev.respOk ⟨some 1, some 2⟩) (by decide)

/-- C4 counterexample: a first run whose channel never received 100 finishes
(summary shown, `processing` back to false), a second run is started — the
first run's channel is still open (`leaked = 1`) alongside the second run's
freshly opened one (`curOpen = true`), so two channels are open and the prior
subscription was not closed before the new one opened. -/
theorem c4_counterexample :
    (run [Ev.selectFolder (SelectOutcome.selOk true), Ev.clickProcess,
          Ev.respOk ⟨some 3, some 5⟩, Ev.jsonOk, Ev.clickProcess,
          Ev.respOk ⟨some 3, some 5⟩]).leaked = 1 ∧
    (run [Ev.selectFolder (SelectOutcome.selOk true), Ev.clickProcess,
          Ev.respOk ⟨some 3, some 5⟩, Ev.jsonOk, Ev.clickProcess,
          Ev.respOk ⟨some 3, some 5⟩]).curOpen = true ∧
    openCount (run [Ev.selectFolder (SelectOutcome.selOk true), Ev.clickProcess,
          Ev.respOk ⟨some 3, some 5⟩, Ev.jsonOk, Ev.clickProcess,
          Ev.respOk ⟨some 3, some 5⟩]) = 2 := by decide

/-- C4 (amended): each run opens at most one channel, but starting a new run
closes nothing: the click step leaves the number of open channels unchanged,
merely abandoning a still-open prior channel, so a prior channel that never
self-terminated stays open alongside the new run's channel. -/
theorem c4_at_most_one_open_per_run (s : State) (h : Reachable s) :
    s.opensThisRun ≤ 1 ∧
    openCount (step s Ev.clickProcess) = openCount s := by
  refine ⟨(reachable_opensInv s h).2, ?_⟩
  simp only [step]
  split
  · rfl
  · simp only [openCount]
    split <;> simp

/-- C4 witness: instantiated at the initial state. -/
theorem c4_witness :
    init.opensThisRun ≤ 1 ∧
    openCount (step init Ev.clickProcess) = openCount init :=
  c4_at_most_one_open_per_run init ⟨[], rfl⟩

/-- C5: if the start-operation call fails (rejected fetch or non-ok
response), the summary is never set during that run — it stays `none` from
the click to the handler's completion, whatever stream events interleave —
and the `processing` flag is false once the handler's `finally` runs. -/
theorem c5_failed_start_no_summary (s : State) (evs : List Ev)
    (hen : processDisabled s = false)
    (hevs : ∀ e ∈ evs, isStreamEv e = true) :
    (step (steps (step s Ev.clickProcess) evs) Ev.respFail).summary = none ∧
    (step (steps (step s Ev.clickProcess) evs) Ev.respFail).processing
      = false := by
  have h1sum : (step s Ev.clickProcess).summary = none := by
    simp [step, hen]
  have h1ph : (step s Ev.clickProcess).phase = Phase.awaitingResponse := by
    simp [step, hen]
  have h2 := steps_stream_frame evs (step s Ev.clickProcess) hevs
  have h2ph := h2.1.trans h1ph
  have h2sum := h2.2.2.2.1.trans h1sum
  rw [step_respFail_eq _ h2ph]
  exact ⟨h2sum, rfl⟩

/-- C5 witness: a concrete failed run with a stray stream message in
between. -/
theorem c5_witness :
    (step (steps (step (run [Ev.selectFolder (SelectOutcome.selOk true)])
        Ev.clickProcess) [Ev.oldMsg 5]) Ev.respFail).summary = none ∧
    (step (steps (step (run [Ev.selectFolder (SelectOutcome.selOk true)])
        Ev.clickProcess) [Ev.oldMsg 5]) Ev.respFail).processing = false :=
  c5_failed_start_no_summary _ [Ev.oldMsg 5] (by decide) (by decide)

/-- C6 counterexample: the stream delivers `progress = 101` — the terminal
value is reached and exceeded — yet the channel stays open, because the
source closes only on `data.progress === 100` exactly. -/
theorem c6_counterexample :
    (run [Ev.selectFolder (SelectOutcome.selOk true), Ev.clickProcess,
          Ev.respOk ⟨some 3, some 5⟩, Ev.msg 101]).progress = 101 ∧
    (run [Ev.selectFolder (SelectOutcome.selOk true), Ev.clickProcess,
          Ev.respOk ⟨some 3, some 5⟩, Ev.msg 101]).curOpen = true := by decide

/-- C6 (amended): while the channel is open, a delivered message closes it
exactly when its progress value is exactly 100 (a value beyond 100 leaves it
open), and once the channel is closed no further message is delivered, so
the self-termination cannot happen twice. -/
theorem c6_closes_exactly_on_100 (s : State) (p : Int) :
    (s.curOpen = true → ((step s (Ev.msg p)).curOpen = false ↔ p = 100)) ∧
    (s.curOpen = false → step s (Ev.msg p) = s) := by
  constructor
  · intro h
    simp only [step, h, if_true]
    split
    · rename_i hp
      simp [hp]
    · rename_i hp
      simp [hp]
  · intro h
    simp [step, h]

/-- C6 witness: with the channel open, the exact message 100 closes it. -/
theorem c6_witness :
    (step (run [Ev.selectFolder (SelectOutcome.selOk true), Ev.clickProcess,
          Ev.respOk ⟨some 3, some 5⟩]) (Ev.msg 100)).curOpen = false :=
  ((c6_closes_exactly_on_100 _ 100).1 (by decide)).mpr rfl

/-- C7: a progress-stream event (message or transport error, on any channel)
never changes the `processing` flag or the `summary`; and the `processing`
flag is cleared only by the settling of the POST `/process` promise chain —
a response failure, the body parse resolving, or the body parse rejecting. -/
theorem c7_stream_frame (s : State) (e : Ev) :
    (isStreamEv e = true →
      (step s e).processing = s.processing ∧ (step s e).summary = s.summary) ∧
    (s.processing = true → (step s e).processing = false →
      e = Ev.respFail ∨ e = Ev.jsonOk ∨ e = Ev.jsonFail) := by
  constructor
  · intro h
    exact ⟨(step_stream_frame s e h).2.2.1, (step_stream_frame s e h).2.2.2.1⟩
  · intro hp hc
    cases e
    case respFail => exact Or.inl rfl
    case jsonOk => exact Or.inr (Or.inl rfl)
    case jsonFail => exact Or.inr (Or.inr rfl)
    all_goals simp only [step] at hc
    all_goals repeat' split at hc
    all_goals simp_all

/-- C7 witness: a concrete mid-run stream message leaves `processing` and
`summary` as they were. -/
theorem c7_witness :
    (step (run [Ev.selectFolder (SelectOutcome.selOk true), Ev.clickProcess,
          Ev.respOk ⟨some 3, some 5⟩]) (Ev.msg 50)).processing
      = (run [Ev.selectFolder (SelectOutcome.selOk true), Ev.clickProcess,
          Ev.respOk ⟨some 3, some 5⟩]).processing ∧
    (step (run [Ev.selectFolder (SelectOutcome.selOk true), Ev.clickProcess,
          Ev.respOk ⟨some 3, some 5⟩]) (Ev.msg 50)).summary
      = (run [Ev.selectFolder (SelectOutcome.selOk true), Ev.clickProcess,
          Ev.respOk ⟨some 3, some 5⟩]).summary :=
  (c7_stream_frame _ (Ev.msg 50)).1 rfl

/-- C8: whenever the folder-selected flag is false or a run is in progress,
the Process Receipts button's `disabled={processing || !folderSelected}`
predicate holds and a click is a no-op — in particular no POST `/process`
request is issued from that state. -/
theorem c8_disabled_gate (s : State)
    (h : s.folderSelected = false ∨ s.processing = true) :
    processDisabled s = true ∧ step s Ev.clickProcess = s ∧
    (step s Ev.clickProcess).processRequests = s.processRequests := by
  have hd : processDisabled s = true := by
    cases h with
    | inl h => simp [processDisabled, h]
    | inr h => simp [processDisabled, h]
  refine ⟨hd, ?_, ?_⟩ <;> simp [step, hd]

/-- C8 witness: in the initial state no folder is selected, so a click does
nothing. -/
theorem c8_witness :
    processDisabled init = true ∧ step init Ev.clickProcess = init ∧
    (step init Ev.clickProcess).processRequests = init.processRequests :=
  c8_disabled_gate init (Or.inl rfl)

/-- C9: the folder-selected flag starts false, every step preserves it once
true, and the only step that changes it is a folder selection that completed
with an ok response whose body has `success` true, fired while no run was in
progress — no processing run, however it ends, ever resets it. -/
theorem c9_folder_selected_monotone :
    init.folderSelected = false ∧
    (∀ s e, s.folderSelected = true → (step s e).folderSelected = true) ∧
    (∀ s e, (step s e).folderSelected ≠ s.folderSelected →
      e = Ev.selectFolder (SelectOutcome.selOk true) ∧
        s.processing = false) := by
  refine ⟨rfl, ?_, ?_⟩
  · intro s e h
    cases e <;> simp only [step] <;> repeat' split
    all_goals simp_all
  · intro s e h
    cases e <;> simp only [step] at h <;> repeat' split at h
    all_goals simp_all

/-- C9 witness: after a successful selection, a process click leaves the
flag true. -/
theorem c9_witness :
    (step (run [Ev.selectFolder (SelectOutcome.selOk true)])
        Ev.clickProcess).folderSelected = true :=
  c9_folder_selected_monotone.2.1 _ Ev.clickProcess (by decide)

/-- C10: an HTTP-ok folder-selection response whose body has `success` false
silently does nothing — the resulting state is identical, so the
folder-selected flag is unchanged (it stays false if it was false), and no
toast of either kind is raised. -/
theorem c10_success_false_silent (s : State) (h : s.processing = false) :
    step s (Ev.selectFolder (SelectOutcome.selOk false)) = s := by
  simp [step, h]

/-- C10 witness: at the initial state nothing changes. -/
theorem c10_witness :
    step init (Ev.selectFolder (SelectOutcome.selOk false)) = init :=
  c10_success_false_silent init rfl

end ReceiptProcessor
